import Mathlib

/-!
Shallow embedding of the sectra-qupath annotation converters.

The repository has three scripts:
  * `sectra_dicom_to_qupath.py`   — DICOM annotations to a GeoJSON feature collection;
  * `sectra_dicom_to_imagescope.py` — DICOM annotations to minimal Aperio ImageScope XML;
  * `sectra_dicom_to_xml.py`      — generic tree mirror (not needed by the claims).

Coordinates are modelled over `ℝ` (the code computes with IEEE floats; the claims
speak of values up to floating tolerance, which the real-number idealization makes
exact).  Python values that may appear inside a `GraphicData` payload are modelled
by `PyVal`; Python's builtin `float(...)` applied to a string is modelled by
`pyFloat?`, a decimal-literal parser returning `Option ℚ` (no exponent notation,
`inf` or `nan` — the claims only exercise plain decimal and non-numeric tokens).
-/

set_option maxHeartbeats 1000000

namespace Sectra

/-- Whitespace left-strip, as Python `str.strip` does on the left. -/
def lstripWS (l : List Char) : List Char := l.dropWhile Char.isWhitespace

/-- Python `str.strip`: drop whitespace from both ends. -/
def strip (l : List Char) : List Char :=
  ((lstripWS l).reverse.dropWhile Char.isWhitespace).reverse

/-- Numeric value of a digit string (most significant first). -/
def digitsVal (l : List Char) : ℕ :=
  l.foldl (fun n c => 10 * n + (c.toNat - 48)) 0

/-- Parse an unsigned decimal literal `digits [. digits]` (at least one digit
overall), the shapes Python `float` accepts apart from sign, whitespace,
exponents and the named specials. -/
def parseUnsignedDecimal (t : List Char) : Option ℚ :=
  let intPart := t.takeWhile Char.isDigit
  let rest := t.dropWhile Char.isDigit
  match rest with
  | [] => if intPart.isEmpty then none else some (digitsVal intPart)
  | '.' :: frac =>
    let fracPart := frac.takeWhile Char.isDigit
    let rest2 := frac.dropWhile Char.isDigit
    if rest2.isEmpty && (!intPart.isEmpty || !fracPart.isEmpty) then
      some ((digitsVal intPart : ℚ) + (digitsVal fracPart : ℚ) / (10 : ℚ) ^ fracPart.length)
    else none
  | _ => none

/-- Model of Python `float(s)` on a string: surrounding whitespace is ignored,
an optional sign precedes a decimal literal; `none` models a raised
`ValueError` (a non-coercible token). -/
def pyFloat? (s : List Char) : Option ℚ :=
  match strip s with
  | '+' :: u => parseUnsignedDecimal u
  | '-' :: u => (parseUnsignedDecimal u).map Neg.neg
  | u => parseUnsignedDecimal u

/-- A Python value appearing inside a coordinate payload: a native number
(int/float, already a numeric value) or a string token. -/
inductive PyVal
  | num (x : ℝ)
  | str (s : List Char)

/-- A DICOM `GraphicData`-style payload: either a native sequence of values or
a single non-sequence value, carried via its `str()` rendering. -/
inductive GraphicData
  | seq (vals : List PyVal)
  | scalar (s : List Char)

/-- Python `str.split` on the backslash separator, keeping empty fields,
exactly as `"a\\b".split("\\")` does. -/
def splitBackslash : List Char → List (List Char)
  | [] => [[]]
  | c :: rest =>
    let r := splitBackslash rest
    if c = '\\' then [] :: r
    else
      match r with
      | [] => [[c]]
      | t :: ts => (c :: t) :: ts

/-- Consume a flat list two elements at a time, silently dropping a trailing
unpaired element — the `range(0, len, 2)` / `i+1 < len` loop shape shared by
both decoders. -/
def pairUp {α : Type} : List α → List (α × α)
  | x :: y :: rest => (x, y) :: pairUp rest
  | _ => []

/-- `parse_float_from_coordinate` from `sectra_dicom_to_qupath.py`: a numeric
value passes through; a string is given to `float`, then to `float` again after
stripping, and an element that still cannot be coerced becomes `0.0`. -/
def parse_float_from_coordinate : PyVal → ℝ
  | .num x => x
  | .str s =>
    match pyFloat? s with
    | some x => (x : ℝ)
    | none =>
      match pyFloat? (strip s) with
      | some x => (x : ℝ)
      | none => 0

/-- `extract_coordinates_robust` from `sectra_dicom_to_qupath.py`: a
non-sequence payload is split on backslashes when it contains one (otherwise it
is dismissed with a warning and yields no pairs); a sequence payload is
consumed pairwise; every element goes through `parse_float_from_coordinate`. -/
def extract_coordinates_robust : GraphicData → List (ℝ × ℝ)
  | .scalar s =>
    if '\\' ∈ s then
      pairUp ((splitBackslash s).map fun p => parse_float_from_coordinate (.str p))
    else []
  | .seq vals => pairUp (vals.map parse_float_from_coordinate)

/-- `_parse_float` from `sectra_dicom_to_imagescope.py`: `float(val)` with any
failure collapsed to `0.0`. -/
def imagescope_parse_float : PyVal → ℝ
  | .num x => x
  | .str s => ((pyFloat? s).getD 0 : ℚ)

/-- `_extract_coordinates` from `sectra_dicom_to_imagescope.py`: `None` yields
no pairs; a sequence is consumed pairwise; anything else is stringified and
split on backslashes, then consumed pairwise, each token through
`_parse_float`. -/
def imagescope_extract_coordinates : Option GraphicData → List (ℝ × ℝ)
  | none => []
  | some (.seq vals) => pairUp (vals.map imagescope_parse_float)
  | some (.scalar s) =>
    pairUp ((splitBackslash s).map fun p => imagescope_parse_float (.str p))

/-! ### The DICOM dataset slice the converters read -/

/-- One item of a `TextObjectSequence`; the anchor point is decoded by the
source but never consumed downstream. -/
structure TextObject where
  unformattedTextValue : Option (List Char)
  anchorPoint : Option GraphicData

/-- One item of a `GraphicObjectSequence`: optional `GraphicType`,
`GraphicFilled` and `GraphicData` attributes (absent attribute = `none`). -/
structure GraphicObject where
  graphicType : Option (List Char)
  graphicFilled : Option (List Char)
  graphicData : Option GraphicData

/-- One item of a `CompoundGraphicSequence`: optional `CompoundGraphicType`
and `GraphicData` attributes. -/
structure CompoundGraphic where
  compoundGraphicType : Option (List Char)
  graphicData : Option GraphicData

/-- One item of the top-level `GraphicAnnotationSequence` (an annotation
group).  A missing sequence attribute is `none`. -/
structure AnnotationSeq where
  textObjectSequence : List TextObject
  graphicObjectSequence : Option (List GraphicObject)
  compoundGraphicSequence : Option (List CompoundGraphic)

/-- The slice of a parsed DICOM dataset the converters look at:
`GraphicAnnotationSequence` and the
`DisplayedAreaSelectionSequence[0].DisplayedAreaBottomRightHandCorner`
width/height hint. -/
structure Dataset where
  graphicAnnotationSequence : Option (List AnnotationSeq)
  displayedArea : Option (ℝ × ℝ)

/-! ### Geometry normalizer and annotation walker (qupath script) -/

/-- Euclidean distance, as `np.sqrt((x2-x1)**2 + (y2-y1)**2)` computes it. -/
noncomputable def euclidean_distance (p q : ℝ × ℝ) : ℝ :=
  Real.sqrt ((q.1 - p.1) ^ 2 + (q.2 - p.2) ^ 2)

/-- `circle_to_polygon` from `sectra_dicom_to_qupath.py`:
`np.linspace(0, 2*pi, num_points, endpoint=False)` samples the angles
`2*pi*k/num_points` for `k < num_points`; the ring is closed by appending the
first vertex (`points.append(points[0])`, here `take 1`). -/
noncomputable def circle_to_polygon (cx cy radius : ℝ) (num_points : ℕ) : List (ℝ × ℝ) :=
  let pts := (List.range num_points).map fun (k : ℕ) =>
    (cx + radius * Real.cos (2 * Real.pi * (k : ℝ) / (num_points : ℝ)),
     cy + radius * Real.sin (2 * Real.pi * (k : ℝ) / (num_points : ℝ)))
  pts ++ pts.take 1

/-- The per-primitive dictionary built by `extract_graphic_objects`: the base
keys `type`, `filled`, `coordinates`, `label`, plus the three keys added only
for a two-point CIRCLE. -/
structure GObj where
  type : List Char
  filled : Bool
  coordinates : List (ℝ × ℝ)
  label : List Char
  center : Option (ℝ × ℝ)
  radius : Option ℝ
  polygon_coordinates : Option (List (ℝ × ℝ))

/-- The label resolution of `extract_text_object`: the first text object's
`UnformattedTextValue`, stripped, defaulting to the empty string. -/
def extract_label (seq : AnnotationSeq) : List Char :=
  match seq.textObjectSequence with
  | [] => []
  | t :: _ => strip (t.unformattedTextValue.getD [])

/-- The per-entry body of the `GraphicObjectSequence` loop in
`extract_graphic_objects`: type defaults to `UNKNOWN`, `filled` is true
exactly when a `GraphicFilled` attribute equals `"Y"`, and a CIRCLE with
exactly two decoded pairs gains `center`, `radius` and a 36-sample polygon. -/
noncomputable def mkGraphicObj (label : List Char) (o : GraphicObject) : GObj :=
  let objType := o.graphicType.getD ("UNKNOWN".data)
  let coords := (o.graphicData.map extract_coordinates_robust).getD []
  let base : GObj :=
    { type := objType
      filled := decide (o.graphicFilled = some ("Y".data))
      coordinates := coords
      label := label
      center := none, radius := none, polygon_coordinates := none }
  if objType = ("CIRCLE".data) then
    match coords with
    | [(cx, cy), (px, py)] =>
      let r := euclidean_distance (cx, cy) (px, py)
      { base with
          center := some (cx, cy)
          radius := some r
          polygon_coordinates := some (circle_to_polygon cx cy r 36) }
    | _ => base
  else base

/-- The per-entry body of the `CompoundGraphicSequence` loop in
`extract_graphic_objects`: an entry without a `CompoundGraphicType` is skipped
(`none`); otherwise the emitted primitive carries the declared type string and
`filled := false`, with no circle post-processing. -/
def mkCompoundObj (label : List Char) (c : CompoundGraphic) : Option GObj :=
  match c.compoundGraphicType with
  | none => none
  | some t =>
    some
      { type := t
        filled := false
        coordinates := (c.graphicData.map extract_coordinates_robust).getD []
        label := label
        center := none, radius := none, polygon_coordinates := none }

/-- `extract_graphic_objects` from `sectra_dicom_to_qupath.py`: the group
label is attached to every primitive of the group; graphic objects come first,
then compound graphics. -/
noncomputable def extract_graphic_objects (seq : AnnotationSeq) : List GObj :=
  let label := extract_label seq
  ((seq.graphicObjectSequence.getD []).map (mkGraphicObj label))
    ++ ((seq.compoundGraphicSequence.getD []).filterMap (mkCompoundObj label))

/-! ### Scale resolver and feature builder (qupath script) -/

/-- `scale_coordinates` from `sectra_dicom_to_qupath.py`: with any dimension
unknown the coordinates pass through unchanged, otherwise x is multiplied by
the width and y by the height. -/
def scale_coordinates (coords : List (ℝ × ℝ)) (w h : Option ℝ) : List (ℝ × ℝ) :=
  match w, h with
  | some wv, some hv => coords.map fun p => (p.1 * wv, p.2 * hv)
  | _, _ => coords

/-- Python substring test for the guard `if "mm" in label`. -/
def containsMM : List Char → Bool
  | [] => false
  | 'm' :: 'm' :: _ => true
  | _ :: t => containsMM t

/-- The numeric-token alternation of the measurement regex,
`\d+,\d+|\d+\.\d+|\d+`, matched at the start of `l`; returns the matched token
and the remainder.  The three alternatives are tried in order; the digit runs
are greedy (no backtracking can help, since a digit never starts `\s*(mm...)`). -/
def matchNumber (l : List Char) : Option (List Char × List Char) :=
  let d1 := l.takeWhile Char.isDigit
  let r1 := l.dropWhile Char.isDigit
  if d1.isEmpty then none
  else
    match r1 with
    | ',' :: r2 =>
      let d2 := r2.takeWhile Char.isDigit
      if d2.isEmpty then some (d1, r1)
      else some (d1 ++ ',' :: d2, r2.dropWhile Char.isDigit)
    | '.' :: r2 =>
      let d2 := r2.takeWhile Char.isDigit
      if d2.isEmpty then some (d1, r1)
      else some (d1 ++ '.' :: d2, r2.dropWhile Char.isDigit)
    | _ => some (d1, r1)

/-- The unit alternation of the measurement regex, `mm²|mm2|mm`, matched at
the start of `l`, alternatives in regex order. -/
def matchUnit : List Char → Option (List Char)
  | 'm' :: 'm' :: '²' :: _ => some ['m', 'm', '²']
  | 'm' :: 'm' :: '2' :: _ => some ['m', 'm', '2']
  | 'm' :: 'm' :: _ => some ['m', 'm']
  | _ => none

/-- One attempted match of `(\d+,\d+|\d+\.\d+|\d+)\s*(mm²|mm2|mm)` anchored at
the current position: number token, optional whitespace, unit token. -/
def matchMeasAt (l : List Char) : Option (List Char × List Char) :=
  (matchNumber l).bind fun tr =>
    (matchUnit (tr.2.dropWhile Char.isWhitespace)).map fun u => (tr.1, u)

/-- The first match `re.findall(...)[0]` of the measurement regex: scan
positions left to right. -/
def firstMeasurement : List Char → Option (List Char × List Char)
  | [] => none
  | c :: t =>
    match matchMeasAt (c :: t) with
    | some m => some m
    | none => firstMeasurement t

/-- `value.replace(",", ".")` on the matched numeric token. -/
def commaToDot (c : Char) : Char := if c = ',' then '.' else c

/-- The measurement heuristic of `create_geojson_feature`: guarded by a
substring test for `"mm"`, then the first regex match gives
`(float(value.replace(",", ".")), unit)`. -/
def measurementFromLabel (l : List Char) : Option (ℝ × List Char) :=
  if containsMM l then
    match firstMeasurement l with
    | some (tok, u) => some ((((pyFloat? (tok.map commaToDot)).getD 0 : ℚ) : ℝ), u)
    | none => none
  else none

/-- A GeoJSON geometry as the qupath script emits it. -/
inductive Geometry
  | lineString (pts : List (ℝ × ℝ))
  | polygon (ring : List (ℝ × ℝ))

/-- The property map attached to an emitted feature. -/
structure Props where
  type : List Char
  filled : Bool
  label : List Char
  measurement : Option (ℝ × List Char)
  radius : Option ℝ
  center : Option (ℝ × ℝ)

/-- An emitted GeoJSON feature. -/
structure Feature where
  geometry : Geometry
  properties : Props

/-- `create_geojson_feature` from `sectra_dicom_to_qupath.py`.  POLYLINE and
ARROW need more than one point; CIRCLE needs the three circle keys, whose
absence raises a `KeyError` that the enclosing `except` turns into `None`;
the `radius` property is the unscaled radius while `center` is scaled; any
other type yields no feature. -/
noncomputable def create_geojson_feature (obj : GObj) (w h : Option ℝ) : Option Feature :=
  let props : Props :=
    { type := obj.type
      filled := obj.filled
      label := strip obj.label
      measurement := measurementFromLabel obj.label
      radius := none
      center := none }
  if obj.type = ("POLYLINE".data) then
    if 1 < obj.coordinates.length then
      some ⟨.lineString (scale_coordinates obj.coordinates w h), props⟩
    else none
  else if obj.type = ("CIRCLE".data) then
    match obj.polygon_coordinates, obj.radius, obj.center with
    | some pc, some r, some c =>
      some ⟨.polygon (scale_coordinates pc w h),
            { props with
                radius := some r
                center := some ((scale_coordinates [c] w h).getD 0 (0, 0)) }⟩
    | _, _, _ => none
  else if obj.type = ("ARROW".data) then
    if 1 < obj.coordinates.length then
      some ⟨.lineString (scale_coordinates obj.coordinates w h), props⟩
    else none
  else none

/-! ### The `dicom_to_geojson` driver -/

/-- Outcome of one image reader inside `read_image_dimensions`: success, or a
failure classified by the exception it raises.  The two `except` clauses catch
exactly `ImportError` and `FileNotFoundError`; any other exception (for
example `openslide.OpenSlideError` on an unsupported format, or
`PIL.UnidentifiedImageError` on an unreadable raster) is not caught there. -/
inductive ReaderOutcome
  | ok (w h : ℝ)
  | importError
  | fileNotFound
  | otherError

/-- `read_image_dimensions` from `sectra_dicom_to_qupath.py`: try openslide;
on `ImportError`/`FileNotFoundError` fall back to PIL; the same two exception
types there yield `(None, None)`; `Except.error` models an exception escaping
the function. -/
def read_image_dimensions : ReaderOutcome → ReaderOutcome → Except Unit (Option ℝ × Option ℝ)
  | .ok w h, _ => .ok (some w, some h)
  | .importError, p | .fileNotFound, p =>
    match p with
    | .ok w h => .ok (some w, some h)
    | .importError => .ok (none, none)
    | .fileNotFound => .ok (none, none)
    | .otherError => .error ()
  | .otherError, _ => .error ()

/-- The optional `-s` raster resource: whether the path exists, and how each
of the two readers would behave on it. -/
structure ImageInput where
  pathExists : Bool
  slide : ReaderOutcome
  pil : ReaderOutcome

/-- Outcome of `pydicom.dcmread` on the input file: a parsed dataset, or a
top-level read/parse failure. -/
inductive ReadResult
  | ok (ds : Dataset)
  | failure

/-- Observable outcome of one `dicom_to_geojson` run: the returned feature
collection and whether the output file was written. -/
structure ConvOutput where
  features : List Feature
  fileWritten : Bool

/-- The document-embedded fallback in `dicom_to_geojson`: when either
dimension is still unknown, the `DisplayedAreaBottomRightHandCorner` pair
supplies both. -/
def apply_display_area_hint (ds : Dataset) (w h : Option ℝ) : Option ℝ × Option ℝ :=
  if w.isNone || h.isNone then
    match ds.displayedArea with
    | some c => (some c.1, some c.2)
    | none => (w, h)
  else (w, h)

/-- The dimension-resolution phase of `dicom_to_geojson`: the raster resource
is consulted only when given and existing; an exception escaping
`read_image_dimensions` escapes this phase too. -/
def resolve_dims (ds : Dataset) (img : Option ImageInput) : Except Unit (Option ℝ × Option ℝ) :=
  match img with
  | some i =>
    if i.pathExists then
      match read_image_dimensions i.slide i.pil with
      | .error e => .error e
      | .ok (w, h) => .ok (apply_display_area_hint ds w h)
    else .ok (apply_display_area_hint ds none none)
  | none => .ok (apply_display_area_hint ds none none)

/-- The feature-collection body of `dicom_to_geojson`: every group's
primitives through `create_geojson_feature`, dropped when it yields `None`. -/
noncomputable def features_of (ds : Dataset) (w h : Option ℝ) : List Feature :=
  (ds.graphicAnnotationSequence.getD []).flatMap fun seq =>
    (extract_graphic_objects seq).filterMap fun o => create_geojson_feature o w h

/-- `dicom_to_geojson` from `sectra_dicom_to_qupath.py`.  The whole body sits
in one `try`: a `dcmread` failure, or an exception escaping the dimension
lookup, reaches the `except`, which returns an empty `FeatureCollection`
without reaching the file-writing code; on success the file is written
exactly when an output path was passed. -/
noncomputable def dicom_to_geojson (rr : ReadResult) (img : Option ImageInput)
    (outputRequested : Bool) : ConvOutput :=
  match rr with
  | .failure => ⟨[], false⟩
  | .ok ds =>
    match resolve_dims ds img with
    | .error _ => ⟨[], false⟩
    | .ok (w, h) => ⟨features_of ds w h, outputRequested⟩

/-! ### The ImageScope converter -/

/-- `_extract_graphics` from `sectra_dicom_to_imagescope.py`: each graphic
object's decoded coordinate list is kept when it is non-empty (`if coords:`),
with no arity or type check beyond that. -/
def imagescope_extract_graphics (seq : AnnotationSeq) : List (List (ℝ × ℝ)) :=
  (seq.graphicObjectSequence.getD []).filterMap fun o =>
    let coords := imagescope_extract_coordinates o.graphicData
    if coords.isEmpty then none else some coords

/-- `dicom_to_imagescope_xml` from `sectra_dicom_to_imagescope.py`, keeping
the region structure and dropping ids and colors: one annotation per group
with at least one kept coordinate list, one region (vertex list) per kept
coordinate list. -/
def dicom_to_imagescope_xml (ds : Dataset) : List (List (List (ℝ × ℝ))) :=
  (ds.graphicAnnotationSequence.getD []).filterMap fun seq =>
    let polys := imagescope_extract_graphics seq
    if polys.isEmpty then none else some polys

/-! ### Concrete inputs used by the claim theorems -/

/-- A conjunction of `p` over all points of a list (binder-free form of
membership quantification). -/
def AllPoints {α : Type} (p : α → Prop) : List α → Prop
  | [] => True
  | v :: t => p v ∧ AllPoints p t

/-- A POLYLINE graphic object whose payload decodes to the single pair
`(5, 6)`. -/
def onePointPolyline : GraphicObject :=
  { graphicType := some ("POLYLINE".data)
    graphicFilled := none
    graphicData := some (.seq [.num 5, .num 6]) }

/-- A group holding only `onePointPolyline`. -/
def onePointSeq : AnnotationSeq :=
  { textObjectSequence := []
    graphicObjectSequence := some [onePointPolyline]
    compoundGraphicSequence := none }

/-- A dataset holding only `onePointSeq`. -/
def onePointDataset : Dataset :=
  { graphicAnnotationSequence := some [onePointSeq]
    displayedArea := none }

/-- A compound graphic whose declared type is ARROW. -/
def arrowCompound : CompoundGraphic :=
  { compoundGraphicType := some ("ARROW".data)
    graphicData := none }

/-- A graphic object carrying `GraphicFilled = "Y"` and nothing else. -/
def filledGraphicObject : GraphicObject :=
  { graphicType := none
    graphicFilled := some ("Y".data)
    graphicData := none }

/-- A group holding one compound graphic whose declared type is RECTANGLE. -/
def rectangleCompoundSeq : AnnotationSeq :=
  { textObjectSequence := []
    graphicObjectSequence := none
    compoundGraphicSequence :=
      some [{ compoundGraphicType := some ("RECTANGLE".data), graphicData := none }] }

/-- The end-to-end example document of the spec: one group with label
`Area 5,2 mm2` and one POLYLINE of points `(0,0)` and `(1,1)`. -/
def areaLabelDataset : Dataset :=
  { graphicAnnotationSequence :=
      some [{ textObjectSequence :=
                [{ unformattedTextValue := some ("Area 5,2 mm2".data), anchorPoint := none }]
              graphicObjectSequence :=
                some [{ graphicType := some ("POLYLINE".data)
                        graphicFilled := none
                        graphicData := some (.seq [.num 0, .num 0, .num 1, .num 1]) }]
              compoundGraphicSequence := none }]
    displayedArea := none }

/-- A CIRCLE graphic object whose payload decodes to exactly the two anchor
pairs `(cx, cy)` (the center) and `(px, py)` (a point on the boundary). -/
def circleGraphicObject (cx cy px py : ℝ) (gf : Option (List Char)) : GraphicObject :=
  { graphicType := some ("CIRCLE".data)
    graphicFilled := gf
    graphicData := some (.seq [.num cx, .num cy, .num px, .num py]) }

/-- The primitive dictionary of a one-point POLYLINE, as the annotation walker
builds it for `onePointPolyline`. -/
def shortPolylineGObj : GObj :=
  { type := ("POLYLINE".data)
    filled := false
    coordinates := [(5, 6)]
    label := []
    center := none, radius := none, polygon_coordinates := none }

/-! ### Helper lemmas -/

theorem euclidean_distance_nonneg (p q : ℝ × ℝ) : 0 ≤ euclidean_distance p q :=
  Real.sqrt_nonneg _

theorem dist_circle_point (cx cy r θ : ℝ) (hr : 0 ≤ r) :
    euclidean_distance (cx, cy) (cx + r * Real.cos θ, cy + r * Real.sin θ) = r := by
  unfold euclidean_distance
  have h1 : (cx + r * Real.cos θ - cx) ^ 2 + (cy + r * Real.sin θ - cy) ^ 2 = r ^ 2 := by
    linear_combination r ^ 2 * Real.sin_sq_add_cos_sq θ
  simp only [h1]
  exact Real.sqrt_sq hr

theorem head_eq_last_append_take {α : Type} (l : List α) :
    (l ++ l.take 1).head? = (l ++ l.take 1).getLast? := by
  cases l with
  | nil => rfl
  | cons x rest =>
    have h1 : (x :: rest).take 1 = [x] := rfl
    rw [h1, List.getLast?_append_of_ne_nil _ (List.cons_ne_nil x [])]
    rfl

theorem circle_to_polygon_length (cx cy r : ℝ) (n : ℕ) (hn : n ≠ 0) :
    (circle_to_polygon cx cy r n).length = n + 1 := by
  dsimp only [circle_to_polygon]
  rw [List.length_append, List.length_take, List.length_map, List.length_range,
    min_eq_left (by omega : 1 ≤ n)]

theorem circle_head_eq_last (cx cy r : ℝ) (n : ℕ) :
    (circle_to_polygon cx cy r n).head? = (circle_to_polygon cx cy r n).getLast? := by
  dsimp only [circle_to_polygon]
  exact head_eq_last_append_take _

theorem pairUp_length {α : Type} : ∀ l : List α, (pairUp l).length = l.length / 2
  | [] => by simp [pairUp]
  | [_] => by simp [pairUp]
  | _ :: _ :: t => by
    simp only [pairUp, List.length_cons, pairUp_length t]
    omega

theorem dropWhile_head_false (p : Char → Bool) :
    ∀ (l : List Char) c t, l.dropWhile p = c :: t → p c = false := by
  intro l
  induction l with
  | nil => intro c t h; simp at h
  | cons a l ih =>
    intro c t h
    rw [List.dropWhile_cons] at h
    by_cases ha : p a
    · exact ih c t (by simpa [ha] using h)
    · simp only [ha, if_false] at h
      cases h
      simpa using ha

theorem dropWhile_dropWhile (p : Char → Bool) (l : List Char) :
    (l.dropWhile p).dropWhile p = l.dropWhile p := by
  cases h : l.dropWhile p with
  | nil => rfl
  | cons c t =>
    simp [List.dropWhile_cons, dropWhile_head_false p l c t h]

theorem dropWhile_append_last (p : Char → Bool) (c : Char) (hc : p c = false)
    (xs : List Char) : (xs ++ [c]).dropWhile p = xs.dropWhile p ++ [c] := by
  induction xs with
  | nil => simp [List.dropWhile_cons, hc]
  | cons a t ih =>
    by_cases ha : p a
    · simpa [List.dropWhile_cons, ha] using ih
    · simp [List.dropWhile_cons, ha]

theorem lstripWS_strip (l : List Char) : lstripWS (strip l) = strip l := by
  unfold strip
  cases h : lstripWS l with
  | nil => simp [lstripWS]
  | cons c t =>
    have hc : Char.isWhitespace c = false :=
      dropWhile_head_false Char.isWhitespace l c t h
    rw [List.reverse_cons, dropWhile_append_last _ c hc]
    simp [lstripWS, List.dropWhile_cons, hc]

theorem strip_strip (l : List Char) : strip (strip l) = strip l := by
  conv_lhs => rw [strip, lstripWS_strip l]
  have h1 : (strip l).reverse = ((lstripWS l).reverse).dropWhile Char.isWhitespace := by
    rw [strip, List.reverse_reverse]
  rw [h1, dropWhile_dropWhile, ← h1, List.reverse_reverse]

theorem pyFloat?_strip (s : List Char) : pyFloat? (strip s) = pyFloat? s := by
  unfold pyFloat?
  rw [strip_strip]

theorem allPoints_iff {α : Type} (p : α → Prop) (l : List α) :
    AllPoints p l ↔ ∀ v ∈ l, p v := by
  induction l with
  | nil => simp [AllPoints]
  | cons x t ih => simp [AllPoints, ih]

theorem splitBackslash_no_sep : ∀ s : List Char, '\\' ∉ s → splitBackslash s = [s] := by
  intro s
  induction s with
  | nil => intro _; rfl
  | cons c t ih =>
    intro h
    have hc : ¬(c = '\\') := by
      intro hc
      exact h (by simp [hc])
    have ht : '\\' ∉ t := fun hm => h (List.mem_cons_of_mem c hm)
    simp [splitBackslash, hc, ih ht]

theorem mkGraphicObj_filled (lbl : List Char) (o : GraphicObject) :
    (mkGraphicObj lbl o).filled = decide (o.graphicFilled = some ("Y".data)) := by
  dsimp only [mkGraphicObj]
  split
  · split <;> rfl
  · rfl

/-! ### Claim theorems -/

/-- C1, counterexample: on a top-level read failure (`dcmread` raises) the
converter returns the empty feature collection but the output file is not
written — the write sits inside the same `try` block that the failure
escapes, so the claim that the output file is still produced is false. -/
theorem c1_counterexample :
    (dicom_to_geojson ReadResult.failure none true).features = [] ∧
      ¬ (dicom_to_geojson ReadResult.failure none true).fileWritten = true := by
  exact ⟨rfl, by simp [dicom_to_geojson]⟩

/-- C1, amended: if the primary source document cannot be read or parsed, the
converter still yields an empty, well-formed feature collection, but it does
not produce the output file — no file is written on that path. -/
theorem c1_top_level_failure (img : Option ImageInput) (wr : Bool) :
    (dicom_to_geojson ReadResult.failure img wr).features = [] ∧
      (dicom_to_geojson ReadResult.failure img wr).fileWritten = false :=
  ⟨rfl, rfl⟩

/-- C1, witness: the amended statement at a concrete input. -/
theorem c1_witness :
    (dicom_to_geojson ReadResult.failure none true).features = [] ∧
      (dicom_to_geojson ReadResult.failure none true).fileWritten = false :=
  c1_top_level_failure none true

/-- C3, counterexample: when both readers fail with an exception other than
`ImportError`/`FileNotFoundError` (for example an unsupported-format error
from the whole-slide reader), the exception escapes the lookup instead of
yielding width/height absent, so the claim is false for those failures. -/
theorem c3_counterexample :
    read_image_dimensions ReaderOutcome.otherError ReaderOutcome.otherError
        = Except.error () ∧
      ¬ read_image_dimensions ReaderOutcome.otherError ReaderOutcome.otherError
          = Except.ok (none, none) := by
  exact ⟨rfl, by simp [read_image_dimensions]⟩

/-- C3, amended: when both readers fail with one of the two caught exception
types (`ImportError` or `FileNotFoundError`), the lookup returns width and
height both absent without throwing, and scaling with both dimensions absent
leaves every coordinate unchanged; reader failures of any other kind escape
the lookup as exceptions. -/
theorem c3_caught_failures (s p : ReaderOutcome) (coords : List (ℝ × ℝ))
    (hs : s = ReaderOutcome.importError ∨ s = ReaderOutcome.fileNotFound)
    (hp : p = ReaderOutcome.importError ∨ p = ReaderOutcome.fileNotFound) :
    read_image_dimensions s p = Except.ok (none, none) ∧
      scale_coordinates coords none none = coords := by
  rcases hs with rfl | rfl <;> rcases hp with rfl | rfl <;> exact ⟨rfl, rfl⟩

/-- C3, witness: the amended statement at a concrete input. -/
theorem c3_witness :
    read_image_dimensions ReaderOutcome.importError ReaderOutcome.fileNotFound
        = Except.ok (none, none) ∧
      scale_coordinates [((1 : ℝ), (2 : ℝ))] none none = [((1 : ℝ), (2 : ℝ))] :=
  c3_caught_failures _ _ _ (Or.inl rfl) (Or.inr rfl)

/-- C4: an element of a sequence payload that cannot be coerced to a float is
decoded as `0.0` by both scripts' element parsers, no failure escapes the
decoder, and the surrounding primitive still gets a decoded result of the
expected pairwise length. -/
theorem c4_non_coercible (s : List Char) (pre post : List PyVal)
    (h : pyFloat? s = none) :
    parse_float_from_coordinate (.str s) = 0 ∧
      imagescope_parse_float (.str s) = 0 ∧
      (extract_coordinates_robust (.seq (pre ++ PyVal.str s :: post))).length
        = (pre.length + 1 + post.length) / 2 := by
  have h2 : pyFloat? (strip s) = none := by rw [pyFloat?_strip]; exact h
  refine ⟨?_, ?_, ?_⟩
  · simp [parse_float_from_coordinate, h, h2]
  · simp [imagescope_parse_float, h]
  · simp only [extract_coordinates_robust, pairUp_length, List.length_map,
      List.length_append, List.length_cons]
    omega

/-- C4, witness: the statement at a concrete non-coercible token. -/
theorem c4_witness :
    parse_float_from_coordinate (.str ("abc".data)) = 0 ∧
      imagescope_parse_float (.str ("abc".data)) = 0 ∧
      (extract_coordinates_robust
          (.seq ([PyVal.num 1] ++ PyVal.str ("abc".data) :: [PyVal.num 2]))).length
        = (1 + 1 + 1) / 2 :=
  c4_non_coercible ("abc".data) [PyVal.num 1] [PyVal.num 2] (by decide)

/-- C5: a backslash-delimited payload with an odd number of tokens decodes, in
both scripts, to exactly floor(tokenCount/2) pairs — the trailing unpaired
token is dropped, never padded. -/
theorem c5_odd_tokens (s : List Char) (_h : Odd (splitBackslash s).length) :
    (extract_coordinates_robust (.scalar s)).length = (splitBackslash s).length / 2 ∧
      (imagescope_extract_coordinates (some (.scalar s))).length
        = (splitBackslash s).length / 2 := by
  constructor
  · by_cases hb : '\\' ∈ s
    · simp [extract_coordinates_robust, hb, pairUp_length]
    · have h1 : splitBackslash s = [s] := splitBackslash_no_sep s hb
      simp [extract_coordinates_robust, hb, h1]
  · simp [imagescope_extract_coordinates, pairUp_length]

/-- C5, witness: three tokens decode to one pair in both scripts. -/
theorem c5_witness :
    (extract_coordinates_robust (.scalar ("1\\2\\3".data))).length
        = (splitBackslash ("1\\2\\3".data)).length / 2 ∧
      (imagescope_extract_coordinates (some (.scalar ("1\\2\\3".data)))).length
        = (splitBackslash ("1\\2\\3".data)).length / 2 :=
  c5_odd_tokens ("1\\2\\3".data) (by decide)

/-- C9, counterexample: a compound-graphic entry whose declared type is
RECTANGLE is emitted with kind RECTANGLE, not ARROW, so the claim that every
compound entry is emitted as kind ARROW regardless of its declared type is
false. -/
theorem c9_counterexample :
    ((extract_graphic_objects rectangleCompoundSeq).map fun o => (o.type, o.filled))
        = [("RECTANGLE".data, false)] ∧
      ("RECTANGLE".data) ≠ ("ARROW".data) := by
  exact ⟨rfl, by decide⟩

/-- C9, amended: a compound-graphic entry with a declared compound type is
emitted as a primitive whose kind is that declared type string with
`filled = false`; an entry without a declared type is skipped entirely. -/
theorem c9_compound_type (lbl : List Char) (c : CompoundGraphic) :
    ((mkCompoundObj lbl c).map fun o => (o.type, o.filled))
      = c.compoundGraphicType.map fun t => (t, false) := by
  rcases c with ⟨ct, gd⟩
  cases ct <;> rfl

/-- C9, witness: the amended statement at a concrete compound entry. -/
theorem c9_witness :
    ((mkCompoundObj [] arrowCompound).map fun o => (o.type, o.filled))
      = (some ("ARROW".data)).map fun t => (t, false) :=
  c9_compound_type [] arrowCompound

/-- C10: a graphic object's `filled` flag is true exactly when it carries a
`GraphicFilled` attribute whose value equals the string Y; a missing attribute
or any other value gives `filled = false`. -/
theorem c10_filled_iff (lbl : List Char) (o : GraphicObject) :
    (mkGraphicObj lbl o).filled = true ↔ o.graphicFilled = some ("Y".data) := by
  rw [mkGraphicObj_filled]
  exact decide_eq_true_iff

/-- C10, witness: the statement at concrete objects on both sides of the
iff. -/
theorem c10_witness :
    ((mkGraphicObj [] filledGraphicObject).filled = true
      ↔ filledGraphicObject.graphicFilled = some ("Y".data)) :=
  c10_filled_iff [] filledGraphicObject

/-- C2: a CIRCLE primitive whose payload decodes to exactly the two pairs
`(cx, cy)` and `(px, py)` gets radius equal to the Euclidean distance between
the two anchor points and the fixed 36-sample polygon; that polygon has
36 + 1 = 37 vertices, its first and last vertex are identical, and every
vertex lies at Euclidean distance radius from the center. -/
theorem c2_circle_polygon (cx cy px py : ℝ) (lbl : List Char) (gf : Option (List Char)) :
    (mkGraphicObj lbl (circleGraphicObject cx cy px py gf)).radius
        = some (euclidean_distance (cx, cy) (px, py)) ∧
      (mkGraphicObj lbl (circleGraphicObject cx cy px py gf)).polygon_coordinates
        = some (circle_to_polygon cx cy (euclidean_distance (cx, cy) (px, py)) 36) ∧
      (circle_to_polygon cx cy (euclidean_distance (cx, cy) (px, py)) 36).length = 36 + 1 ∧
      (circle_to_polygon cx cy (euclidean_distance (cx, cy) (px, py)) 36).head?
        = (circle_to_polygon cx cy (euclidean_distance (cx, cy) (px, py)) 36).getLast? ∧
      AllPoints
        (fun v => euclidean_distance (cx, cy) v = euclidean_distance (cx, cy) (px, py))
        (circle_to_polygon cx cy (euclidean_distance (cx, cy) (px, py)) 36) := by
  set r := euclidean_distance (cx, cy) (px, py) with hr
  have hr0 : 0 ≤ r := euclidean_distance_nonneg _ _
  refine ⟨rfl, rfl, ?_, ?_, ?_⟩
  · exact circle_to_polygon_length cx cy r 36 (by norm_num)
  · exact circle_head_eq_last cx cy r 36
  · rw [allPoints_iff]
    intro v hv
    simp only [circle_to_polygon, List.mem_append] at hv
    have hv2 : v ∈ (List.range 36).map fun (k : ℕ) =>
        (cx + r * Real.cos (2 * Real.pi * (k : ℝ) / ((36 : ℕ) : ℝ)),
         cy + r * Real.sin (2 * Real.pi * (k : ℝ) / ((36 : ℕ) : ℝ))) := by
      rcases hv with hv | hv
      · exact hv
      · exact List.take_subset 1 _ hv
    obtain ⟨k, _, rfl⟩ := List.mem_map.1 hv2
    exact dist_circle_point cx cy r _ hr0

/-- C6: for a two-point CIRCLE primitive converted with both width and height
present, the emitted feature's center property is the decoded center scaled
elementwise, while its radius property is the unscaled Euclidean distance
between the decoded anchor points. -/
theorem c6_circle_scaling (cx cy px py w h : ℝ) (lbl : List Char) (gf : Option (List Char)) :
    ((create_geojson_feature (mkGraphicObj lbl (circleGraphicObject cx cy px py gf))
        (some w) (some h)).map fun f => (f.properties.center, f.properties.radius))
      = some (some (cx * w, cy * h), some (euclidean_distance (cx, cy) (px, py))) :=
  rfl

/-- C7, counterexample: a POLYLINE primitive with a single decoded point is
excluded from the GeoJSON feature collection, but the ImageScope converter
still emits a region for it (its `if coords:` guard only drops empty lists),
so the claim that such a primitive is excluded from every output is false. -/
theorem c7_counterexample :
    create_geojson_feature (mkGraphicObj [] onePointPolyline) none none = none ∧
      dicom_to_imagescope_xml onePointDataset = [[[((5 : ℝ), 6)]]] ∧
      dicom_to_imagescope_xml onePointDataset ≠ [] := by
  refine ⟨rfl, rfl, ?_⟩
  have h1 : dicom_to_imagescope_xml onePointDataset = [[[((5 : ℝ), 6)]]] := rfl
  rw [h1]
  simp

/-- C7, amended: a POLYLINE or ARROW primitive with fewer than two decoded
points yields no feature in the GeoJSON output; the ImageScope region output
excludes a primitive only when it decodes to zero points (a one-point
primitive still produces a region there). -/
theorem c7_short_line (g : GObj) (w h : Option ℝ) (seq : AnnotationSeq)
    (hty : g.type = ("POLYLINE".data) ∨ g.type = ("ARROW".data))
    (hlen : g.coordinates.length < 2) :
    create_geojson_feature g w h = none ∧ [] ∉ imagescope_extract_graphics seq := by
  have h2 : ¬(1 < g.coordinates.length) := by omega
  constructor
  · rcases hty with hty | hty
    · simp [create_geojson_feature, hty, h2]
    · have hne1 : ("ARROW".data) ≠ ("POLYLINE".data) := by decide
      have hne2 : ("ARROW".data) ≠ ("CIRCLE".data) := by decide
      simp [create_geojson_feature, hty, hne1, hne2, h2]
  · intro hmem
    simp only [imagescope_extract_graphics, List.mem_filterMap] at hmem
    obtain ⟨o, _, ho⟩ := hmem
    by_cases hc : (imagescope_extract_coordinates o.graphicData).isEmpty
    · simp [hc] at ho
    · simp [hc] at ho
      exact hc (by simp [ho])

/-- C7, witness: the amended statement at a concrete one-point POLYLINE. -/
theorem c7_witness :
    create_geojson_feature shortPolylineGObj none none = none ∧
      [] ∉ imagescope_extract_graphics onePointSeq :=
  c7_short_line shortPolylineGObj none none onePointSeq (Or.inl rfl) (by decide)

/-- C8: the end-to-end example — a document with one POLYLINE primitive of
points (0,0) and (1,1) under the group label `Area 5,2 mm2` yields exactly one
LINE feature carrying measurement value 5.2 with unit `mm2` (the comma
accepted as decimal separator). -/
theorem c8_measurement :
    ((dicom_to_geojson (ReadResult.ok areaLabelDataset) none false).features.map
        fun f => (f.geometry, f.properties.measurement))
      = [(Geometry.lineString [((0 : ℝ), (0 : ℝ)), (1, 1)],
          some ((5.2 : ℝ), ("mm2".data)))] := by
  have d5 : digitsVal ['5'] = 5 := rfl
  have d2 : digitsVal ['2'] = 2 := rfl
  have h2 : pyFloat? (("5,2".data).map commaToDot)
      = some ((digitsVal ['5'] : ℚ) + (digitsVal ['2'] : ℚ) / (10 : ℚ) ^ (['2'].length)) := rfl
  have hval : (((pyFloat? (("5,2".data).map commaToDot)).getD 0 : ℚ) : ℝ) = 5.2 := by
    rw [h2, d5, d2]
    simp only [Option.getD_some, List.length_singleton]
    push_cast
    norm_num
  rw [← hval]
  rfl

end Sectra
